import Mathlib

/-!
# ltwheelconf: command dispatch, mode switching and parameter setters

A shallow embedding of `src/wheelfunctions.c`.

The C functions talk to the outside world through libusb, `sleep`, `open` and
`write`.  Here the outside world is an arbitrary state type `σ` together with a
record `Sys σ` that says, for every external call, what the call returns and
what the world looks like afterwards.  Each C function becomes a function on
`Run σ`, which carries the world, the list of external calls issued so far (in
order) and the console output.  A property proved for every `σ` and every
`Sys σ` holds whatever the bus and the transport answer.

The declarations of `wheels.h` that the functions use are parameters, collected
in `Ctx`: the wheel table, `VID_LOGITECH`, and the width of one row of
`cmdstruct.cmds`.
-/

namespace LTWheelConf

/-! ## Constants -/

/-- From the source: `#define TRANSFER_WAIT_TIMEOUT_MS 5000`. -/
def TRANSFER_WAIT_TIMEOUT_MS : Nat := 5000

/-- From the source: `#define CONFIGURE_WAIT_SEC 3`. -/
def CONFIGURE_WAIT_SEC : Nat := 3

/-- From the source: `#define UDEV_WAIT_SEC 2`. -/
def UDEV_WAIT_SEC : Nat := 2

/-- The libusb error code `LIBUSB_ERROR_NO_DEVICE` (libusb.h). -/
def LIBUSB_ERROR_NO_DEVICE : Int := -4

/-- The event type `EV_FF` (linux/input.h). -/
def EV_FF : Nat := 0x15

/-- The force-feedback code `FF_GAIN` (linux/input.h). -/
def FF_GAIN : Nat := 0x60

/-- The force-feedback code `FF_AUTOCENTER` (linux/input.h). -/
def FF_AUTOCENTER : Nat := 0x61

/-- The open flag `O_RDWR` (fcntl.h). -/
def O_RDWR : Nat := 2

/-- The null pointer; a `libusb_device_handle *` is modelled by a number,
zero standing for `NULL`. -/
def NULL : Nat := 0

/-! ## Data model -/

/-- The C type `cmdstruct`: rows of command bytes and the number of rows in use.
Its declaration is in `wheels.h`; every row has the same width, `Ctx.frameLen`. -/
structure cmdstruct where
  cmds : List (List Nat)
  numCmds : Nat
  deriving DecidableEq, Repr

/-- The C type `wheelstruct`, with the fields the translated file reads.  The two
prefixes are tested against null in the source, hence optional here. -/
structure wheelstruct where
  name : String
  native_pid : Nat
  restricted_pid : Nat
  cmd_native : cmdstruct
  cmd_range_prefix : Option (Nat × Nat)
  cmd_autocenter_prefix : Option (Nat × Nat)
  deriving DecidableEq, Repr

/-- The parts of `struct input_event` that the source fills in. -/
structure input_event where
  type : Nat
  code : Nat
  value : Int
  deriving DecidableEq, Repr

/-- What the translated file takes from elsewhere: the declarations of `wheels.h`
(wheel table, vendor id, row width of `cmdstruct.cmds`) and the global
`verbose_flag`. -/
structure Ctx where
  wheels : Nat → wheelstruct
  VID_LOGITECH : Nat
  frameLen : Nat
  verbose_flag : Int

/-- One external call, with its arguments, as issued by the program. -/
inductive Call where
  | libusb_open_device_with_vid_pid (vid pid : Nat)
  | libusb_detach_kernel_driver (handle : Nat) (interface : Int)
  | libusb_claim_interface (handle : Nat) (interface : Int)
  | libusb_interrupt_transfer (handle : Nat) (endpoint : Nat) (data : List Nat)
      (length : Nat) (timeout : Nat)
  | libusb_release_interface (handle : Nat) (interface : Int)
  | libusb_attach_kernel_driver (handle : Nat) (interface : Int)
  | sleep (seconds : Nat)
  | sys_open (path : String) (flags : Nat)
  | sys_write (fd : Int) (event : input_event)
  deriving DecidableEq, Repr

/-- One line of console output. -/
inductive Out where
  | printf (text : String)
  | perror (text : String)
  deriving DecidableEq, Repr

/-- The answers of the outside world: for each external call, the value it
returns and the world after it. -/
structure Sys (σ : Type) where
  open_device_with_vid_pid : σ → Nat → Nat → Nat × σ
  detach_kernel_driver : σ → Nat → Int → Int × σ
  claim_interface : σ → Nat → Int → Int × σ
  interrupt_transfer : σ → Nat → Nat → List Nat → Nat → Nat → Int × σ
  release_interface : σ → Nat → Int → Int × σ
  attach_kernel_driver : σ → Nat → Int → Int × σ
  sleep : σ → Nat → σ
  sys_open : σ → String → Nat → Int × σ
  sys_write : σ → Int → input_event → Int × σ

/-- The state threaded through a run: the world, the external calls issued so
far and the console output so far. -/
structure Run (σ : Type) where
  world : σ
  calls : List Call
  out : List Out

/-! ## External calls and output -/

/-- Console output through `printf`. -/
def printf {σ : Type} (text : String) (r : Run σ) : Run σ :=
  { r with out := r.out ++ [Out.printf text] }

/-- Console output through `perror`. -/
def perror {σ : Type} (text : String) (r : Run σ) : Run σ :=
  { r with out := r.out ++ [Out.perror text] }

/-- The call `libusb_open_device_with_vid_pid(NULL, vid, pid)`. -/
def libusb_open_device_with_vid_pid {σ : Type} (E : Sys σ) (vid pid : Nat)
    (r : Run σ) : Nat × Run σ :=
  ((E.open_device_with_vid_pid r.world vid pid).1,
   { r with world := (E.open_device_with_vid_pid r.world vid pid).2,
            calls := r.calls ++ [Call.libusb_open_device_with_vid_pid vid pid] })

/-- The call `libusb_detach_kernel_driver(handle, interface)`. -/
def libusb_detach_kernel_driver {σ : Type} (E : Sys σ) (handle : Nat) (interface : Int)
    (r : Run σ) : Int × Run σ :=
  ((E.detach_kernel_driver r.world handle interface).1,
   { r with world := (E.detach_kernel_driver r.world handle interface).2,
            calls := r.calls ++ [Call.libusb_detach_kernel_driver handle interface] })

/-- The call `libusb_claim_interface(handle, interface)`. -/
def libusb_claim_interface {σ : Type} (E : Sys σ) (handle : Nat) (interface : Int)
    (r : Run σ) : Int × Run σ :=
  ((E.claim_interface r.world handle interface).1,
   { r with world := (E.claim_interface r.world handle interface).2,
            calls := r.calls ++ [Call.libusb_claim_interface handle interface] })

/-- The call `libusb_interrupt_transfer(handle, endpoint, data, length, &transferred,
timeout)`; the transferred count is never read by the program. -/
def libusb_interrupt_transfer {σ : Type} (E : Sys σ) (handle endpoint : Nat)
    (data : List Nat) (length timeout : Nat) (r : Run σ) : Int × Run σ :=
  ((E.interrupt_transfer r.world handle endpoint data length timeout).1,
   { r with world := (E.interrupt_transfer r.world handle endpoint data length timeout).2,
            calls := r.calls ++
              [Call.libusb_interrupt_transfer handle endpoint data length timeout] })

/-- The call `libusb_release_interface(handle, interface)`. -/
def libusb_release_interface {σ : Type} (E : Sys σ) (handle : Nat) (interface : Int)
    (r : Run σ) : Int × Run σ :=
  ((E.release_interface r.world handle interface).1,
   { r with world := (E.release_interface r.world handle interface).2,
            calls := r.calls ++ [Call.libusb_release_interface handle interface] })

/-- The call `libusb_attach_kernel_driver(handle, interface)`. -/
def libusb_attach_kernel_driver {σ : Type} (E : Sys σ) (handle : Nat) (interface : Int)
    (r : Run σ) : Int × Run σ :=
  ((E.attach_kernel_driver r.world handle interface).1,
   { r with world := (E.attach_kernel_driver r.world handle interface).2,
            calls := r.calls ++ [Call.libusb_attach_kernel_driver handle interface] })

/-- The call `sleep(seconds)`. -/
def sleep {σ : Type} (E : Sys σ) (seconds : Nat) (r : Run σ) : Run σ :=
  { r with world := E.sleep r.world seconds, calls := r.calls ++ [Call.sleep seconds] }

/-- The call `open(path, flags)`. -/
def sys_open {σ : Type} (E : Sys σ) (path : String) (flags : Nat) (r : Run σ) :
    Int × Run σ :=
  ((E.sys_open r.world path flags).1,
   { r with world := (E.sys_open r.world path flags).2,
            calls := r.calls ++ [Call.sys_open path flags] })

/-- The call `write(fd, &ie, sizeof(ie))`. -/
def sys_write {σ : Type} (E : Sys σ) (fd : Int) (ie : input_event) (r : Run σ) :
    Int × Run σ :=
  ((E.sys_write r.world fd ie).1,
   { r with world := (E.sys_write r.world fd ie).2,
            calls := r.calls ++ [Call.sys_write fd ie] })

/-! ## C arithmetic -/

/-- A brace initialiser for a row of `width` bytes, as in
`{ p0, p1, range & 0x00ff, ... }`: the listed bytes in order, the rest of the row
filled with zero; a listed byte that has no place in the row is dropped. -/
def row_init (width : Nat) (bytes : List Nat) : List Nat :=
  (bytes ++ List.replicate (width - bytes.length) 0).take width

/-- Conversion of an integer value to `unsigned char`. -/
def to_uchar (x : Nat) : Nat := x % 256

/-- Conversion of an `int` to `unsigned long`, taken as 64 bits wide.  For the
percentages 0 to 100, the only ones for which the program evaluates the product, a
32-bit `unsigned long` gives the same values: the product stays below `2 ^ 23`. -/
def to_ulong (x : Int) : Nat := (x % 18446744073709551616).toNat

/-- Conversion of an `unsigned long` to the signed 32-bit field `value`. -/
def to_s32 (x : Nat) : Int :=
  if x % 4294967296 < 2147483648 then (x % 4294967296 : Nat)
  else ((x % 4294967296 : Nat) : Int) - 4294967296

/-- The expression `0xFFFFUL * pct / 100` as stored in `ie.value`: the product and
the quotient are taken in `unsigned long`. -/
def ff_value (pct : Int) : Int :=
  to_s32 ((0xFFFF * to_ulong pct) % 18446744073709551616 / 100)

/-- Hexadecimal rendering, as `%x` prints it. -/
def fmt_x (n : Nat) : String := String.mk (Nat.toDigits 16 n)

/-! ## The program -/

/-- The loop of `send_command`, `for (cmdCount = 0; cmdCount < command.numCmds;
cmdCount++)`, over the list of its indices: one interrupt transfer of row
`cmds[cmdCount]` per index, the length being the size of a row, and `perror` when the
transfer fails or `verbose_flag` is set.  A row the batch does not list is all zero. -/
def send_command_loop {σ : Type} (C : Ctx) (E : Sys σ) (handle : Nat) (command : cmdstruct) :
    List Nat → Run σ → Run σ
  | [], r => r
  | cmdCount :: rest, r =>
    let p := libusb_interrupt_transfer E handle 1
      (command.cmds.getD cmdCount (List.replicate C.frameLen 0)) C.frameLen
      TRANSFER_WAIT_TIMEOUT_MS r
    let r1 := if p.1 < 0 ∨ C.verbose_flag ≠ 0 then perror "Sending USB command" p.2 else p.2
    send_command_loop C E handle command rest r1

/-- The function `send_command`: nothing but a message for an empty batch; otherwise
detach, claim, the loop over the rows, release and reattach, with the result of each
step used for console output only.  The return value is always 0. -/
def send_command {σ : Type} (C : Ctx) (E : Sys σ) (handle : Nat) (command : cmdstruct)
    (r : Run σ) : Int × Run σ :=
  if command.numCmds = 0 then
    (0, printf "send_command: Empty command provided! Not sending anything...\n" r)
  else
    let p1 := libusb_detach_kernel_driver E handle 0 r
    let r1 := if p1.1 < 0 ∨ C.verbose_flag ≠ 0 then perror "Detach kernel driver" p1.2 else p1.2
    let p2 := libusb_claim_interface E handle 0 r1
    let r2 := if p2.1 < 0 ∨ C.verbose_flag ≠ 0 then perror "Claiming USB interface" p2.2 else p2.2
    let r3 := send_command_loop C E handle command (List.range command.numCmds) r2
    let p4 := libusb_release_interface E handle 0 r3
    let r4 :=
      if p4.1 ≠ LIBUSB_ERROR_NO_DEVICE then
        if p4.1 < 0 ∨ C.verbose_flag ≠ 0 then perror "Releasing USB interface." p4.2 else p4.2
      else p4.2
    let p5 := libusb_attach_kernel_driver E handle 0 r4
    let r5 :=
      if p5.1 ≠ LIBUSB_ERROR_NO_DEVICE then
        if p5.1 < 0 ∨ C.verbose_flag ≠ 0 then perror "Reattaching kernel driver" p5.2 else p5.2
      else p5.2
    (0, r5)

/-- The function `set_native_mode`: the chain of early returns of the source, written
as nested conditionals. -/
def set_native_mode {σ : Type} (C : Ctx) (E : Sys σ) (wheelIndex : Nat) (r : Run σ) :
    Int × Run σ :=
  let w := C.wheels wheelIndex
  if w.native_pid = w.restricted_pid then
    (0, printf (w.name ++ " is always in native mode.\n") r)
  else
    let p1 := libusb_open_device_with_vid_pid E C.VID_LOGITECH w.native_pid r
    if p1.1 ≠ NULL then
      (0, printf ("Found a " ++ w.name ++ " already in native mode.\n") p1.2)
    else if w.cmd_native.numCmds = 0 then
      (-1, printf ("Sorry, do not know how to set " ++ w.name ++ " into native mode.\n") p1.2)
    else
      let p2 := libusb_open_device_with_vid_pid E C.VID_LOGITECH w.restricted_pid p1.2
      if p2.1 = NULL then
        (-1, printf ("Can not find " ++ w.name ++ " in restricted mode (PID " ++
          fmt_x w.restricted_pid ++ "). This should not happen :-(\n") p2.2)
      else
        let p3 := send_command C E p2.1 w.cmd_native p2.2
        let r4 := sleep E CONFIGURE_WAIT_SEC p3.2
        let p5 := libusb_open_device_with_vid_pid E C.VID_LOGITECH w.native_pid r4
        if p5.1 ≠ NULL then
          (0, printf (w.name ++ " is now set to native mode.\n") p5.2)
        else
          (-1, printf ("Unable to set " ++ w.name ++ " to native mode.\n") p5.2)

/-- The function `set_range`; `range` is an `unsigned short`.  The probe of the native
product id comes first, the test of the prefix second, as in the source. -/
def set_range {σ : Type} (C : Ctx) (E : Sys σ) (wheelIndex : Nat) (range : Nat) (r : Run σ) :
    Int × Run σ :=
  let w := C.wheels wheelIndex
  let p1 := libusb_open_device_with_vid_pid E C.VID_LOGITECH w.native_pid r
  if p1.1 = NULL then
    (-1, printf (w.name ++ " not found. Make sure it is set to native mode (use --native).\n")
      p1.2)
  else
    match wheelstruct.cmd_range_prefix w with
    | none =>
      (-1, printf ("Sorry, do not know how to set rotation range for " ++ w.name ++ ".\n") p1.2)
    | some pre =>
      let setrange : cmdstruct :=
        { cmds := [row_init C.frameLen
            [pre.1, pre.2, to_uchar (range &&& 0x00ff), to_uchar ((range &&& 0xff00) >>> 8),
             0x00, 0x00, 0x00]],
          numCmds := 1 }
      let p2 := send_command C E p1.1 setrange p1.2
      (0, printf ("Wheel rotation range of " ++ w.name ++ " is now set to " ++ toString range ++
        " degrees.\n") p2.2)

/-- The function `alt_set_autocenter`.  The final `printf` and `return 0` of the source
are reached both after a successful write and when the range test fails; they appear
once in each of these two branches here. -/
def alt_set_autocenter {σ : Type} (C : Ctx) (E : Sys σ) (centerforce : Int)
    (device_file_name : String) (wait_for_udev : Int) (r : Run σ) : Int × Run σ :=
  let r0 :=
    if C.verbose_flag ≠ 0 then
      printf ("Device " ++ device_file_name ++ ": Setting autocenter force to " ++
        toString centerforce ++ ".\n") r
    else r
  let r1 := if wait_for_udev ≠ 0 then sleep E UDEV_WAIT_SEC r0 else r0
  let p2 := sys_open E device_file_name O_RDWR r1
  if p2.1 = -1 then
    (-1, perror "Open device file" p2.2)
  else if 0 ≤ centerforce ∧ centerforce ≤ 100 then
    let ie : input_event := { type := EV_FF, code := FF_AUTOCENTER, value := ff_value centerforce }
    let p3 := sys_write E p2.1 ie p2.2
    if p3.1 = -1 then
      (-1, perror "set auto-center" p3.2)
    else
      (0, printf ("Wheel autocenter force is now set to " ++ toString centerforce ++ ".\n") p3.2)
  else
    (0, printf ("Wheel autocenter force is now set to " ++ toString centerforce ++ ".\n") p2.2)

/-- The function `set_gain`, of the same shape as `alt_set_autocenter`. -/
def set_gain {σ : Type} (C : Ctx) (E : Sys σ) (gain : Int) (device_file_name : String)
    (wait_for_udev : Int) (r : Run σ) : Int × Run σ :=
  let r0 :=
    if C.verbose_flag ≠ 0 then
      printf ("Device " ++ device_file_name ++ ": Setting FF gain to " ++ toString gain ++ ".\n") r
    else r
  let r1 := if wait_for_udev ≠ 0 then sleep E UDEV_WAIT_SEC r0 else r0
  let p2 := sys_open E device_file_name O_RDWR r1
  if p2.1 = -1 then
    (-1, perror "Open device file" p2.2)
  else if 0 ≤ gain ∧ gain ≤ 100 then
    let ie : input_event := { type := EV_FF, code := FF_GAIN, value := ff_value gain }
    let p3 := sys_write E p2.1 ie p2.2
    if p3.1 = -1 then
      (-1, perror "set gain" p3.2)
    else
      (0, printf ("Wheel forcefeedback gain is now set to " ++ toString gain ++ ".\n") p3.2)
  else
    (0, printf ("Wheel forcefeedback gain is now set to " ++ toString gain ++ ".\n") p2.2)

/-! ## Rounding, as the specification words it -/

/-- Following the specification's wording `round(num / den)`: `v` is an integer nearest
to the quotient `num / den`, that is, at distance at most one half from it. -/
def is_nearest_integer (v num den : Int) : Prop :=
  den * (2 * v - 1) ≤ 2 * num ∧ 2 * num ≤ den * (2 * v + 1)

instance (v num den : Int) : Decidable (is_nearest_integer v num den) :=
  inferInstanceAs (Decidable (_ ∧ _))

/-! ## A scripted bus, for runs on concrete inputs -/

/-- A wheel with a restricted and a native product id and a two-frame native-mode
command; rows are `width` bytes wide. -/
def demo_wheel (width : Nat) : wheelstruct :=
  { name := "Wheel A",
    native_pid := 0xc299,
    restricted_pid := 0xc294,
    cmd_native :=
      { cmds := [row_init width [0xf8, 0x0a, 0x00, 0x00, 0x00, 0x00, 0x00],
                 row_init width [0xf8, 0x09, 0x02, 0x01, 0x00, 0x00, 0x00]],
        numCmds := 2 },
    cmd_range_prefix := some (0xF8, 0x81),
    cmd_autocenter_prefix := some (0xF8, 0x00) }

/-- A wheel with a single product id and no commands at all. -/
def demo_wheel_plain : wheelstruct :=
  { name := "Wheel B",
    native_pid := 0xc294,
    restricted_pid := 0xc294,
    cmd_native := { cmds := [], numCmds := 0 },
    cmd_range_prefix := none,
    cmd_autocenter_prefix := none }

/-- A wheel with two product ids for which no native-mode command is known. -/
def demo_wheel_noswitch : wheelstruct :=
  { name := "Wheel C",
    native_pid := 0xc299,
    restricted_pid := 0xc294,
    cmd_native := { cmds := [], numCmds := 0 },
    cmd_range_prefix := none,
    cmd_autocenter_prefix := none }

/-- A wheel whose native-mode command is one frame that the scripted bus ignores. -/
def demo_wheel_stuck (width : Nat) : wheelstruct :=
  { name := "Wheel D",
    native_pid := 0xc299,
    restricted_pid := 0xc294,
    cmd_native :=
      { cmds := [row_init width [0xf8, 0x0a, 0x00, 0x00, 0x00, 0x00, 0x00]], numCmds := 1 },
    cmd_range_prefix := none,
    cmd_autocenter_prefix := none }

/-- A context with a four-entry wheel table and rows of `width` bytes. -/
def demo_ctx (width : Nat) : Ctx :=
  { wheels := fun i =>
      match i with
      | 0 => demo_wheel width
      | 1 => demo_wheel_plain
      | 2 => demo_wheel_noswitch
      | _ => demo_wheel_stuck width,
    VID_LOGITECH := 0x046d,
    frameLen := width,
    verbose_flag := 0 }

/-- A scripted bus.  The world is the handle of the one device present: 0 for none,
1 for a wheel in restricted mode (product id 0xc294), 2 for the wheel in native mode
(product id 0xc299).  A frame starting `f8 09` sent to the restricted wheel makes it
re-enumerate as the native one; from then on the old handle answers
`LIBUSB_ERROR_NO_DEVICE`.  The only device node is `/dev/input/event5`. -/
def demo_sys : Sys Nat :=
  { open_device_with_vid_pid := fun s vid pid =>
      (if vid = 0x046d ∧ ((s = 1 ∧ pid = 0xc294) ∨ (s = 2 ∧ pid = 0xc299)) then s else 0, s),
    detach_kernel_driver := fun s h _ => (if h = s then 0 else LIBUSB_ERROR_NO_DEVICE, s),
    claim_interface := fun s h _ => (if h = s then 0 else LIBUSB_ERROR_NO_DEVICE, s),
    interrupt_transfer := fun s h _ data _ _ =>
      (if h = s then 0 else LIBUSB_ERROR_NO_DEVICE,
       if h = s ∧ s = 1 ∧ data.take 2 = [0xf8, 0x09] then 2 else s),
    release_interface := fun s h _ => (if h = s then 0 else LIBUSB_ERROR_NO_DEVICE, s),
    attach_kernel_driver := fun s h _ => (if h = s then 0 else LIBUSB_ERROR_NO_DEVICE, s),
    sleep := fun s _ => s,
    sys_open := fun s path _ => (if path = "/dev/input/event5" then 3 else -1, s),
    sys_write := fun s _ _ => (24, s) }

/-- The start of a run on the scripted bus in world `s`. -/
def demo_run (s : Nat) : Run Nat := { world := s, calls := [], out := [] }

/-! ## Command transport -/

section Transport

variable {σ : Type}

@[simp] theorem printf_calls (text : String) (r : Run σ) : (printf text r).calls = r.calls := rfl

@[simp] theorem printf_world (text : String) (r : Run σ) : (printf text r).world = r.world := rfl

@[simp] theorem perror_calls (text : String) (r : Run σ) : (perror text r).calls = r.calls := rfl

@[simp] theorem perror_world (text : String) (r : Run σ) : (perror text r).world = r.world := rfl

@[simp] theorem libusb_open_device_with_vid_pid_calls (E : Sys σ) (vid pid : Nat) (r : Run σ) :
    (libusb_open_device_with_vid_pid E vid pid r).2.calls =
      r.calls ++ [Call.libusb_open_device_with_vid_pid vid pid] := rfl

@[simp] theorem libusb_detach_kernel_driver_calls (E : Sys σ) (handle : Nat) (i : Int)
    (r : Run σ) :
    (libusb_detach_kernel_driver E handle i r).2.calls =
      r.calls ++ [Call.libusb_detach_kernel_driver handle i] := rfl

@[simp] theorem libusb_claim_interface_calls (E : Sys σ) (handle : Nat) (i : Int) (r : Run σ) :
    (libusb_claim_interface E handle i r).2.calls =
      r.calls ++ [Call.libusb_claim_interface handle i] := rfl

@[simp] theorem libusb_interrupt_transfer_calls (E : Sys σ) (handle endpoint : Nat)
    (data : List Nat) (length timeout : Nat) (r : Run σ) :
    (libusb_interrupt_transfer E handle endpoint data length timeout r).2.calls =
      r.calls ++ [Call.libusb_interrupt_transfer handle endpoint data length timeout] := rfl

@[simp] theorem libusb_release_interface_calls (E : Sys σ) (handle : Nat) (i : Int)
    (r : Run σ) :
    (libusb_release_interface E handle i r).2.calls =
      r.calls ++ [Call.libusb_release_interface handle i] := rfl

@[simp] theorem libusb_attach_kernel_driver_calls (E : Sys σ) (handle : Nat) (i : Int)
    (r : Run σ) :
    (libusb_attach_kernel_driver E handle i r).2.calls =
      r.calls ++ [Call.libusb_attach_kernel_driver handle i] := rfl

@[simp] theorem sleep_calls (E : Sys σ) (seconds : Nat) (r : Run σ) :
    (sleep E seconds r).calls = r.calls ++ [Call.sleep seconds] := rfl

@[simp] theorem sys_open_calls (E : Sys σ) (path : String) (flags : Nat) (r : Run σ) :
    (sys_open E path flags r).2.calls = r.calls ++ [Call.sys_open path flags] := rfl

@[simp] theorem sys_write_calls (E : Sys σ) (fd : Int) (ie : input_event) (r : Run σ) :
    (sys_write E fd ie r).2.calls = r.calls ++ [Call.sys_write fd ie] := rfl

/-- The handle returned by a probe depends on the world only. -/
theorem libusb_open_device_with_vid_pid_fst (E : Sys σ) (vid pid : Nat) (r : Run σ) :
    (libusb_open_device_with_vid_pid E vid pid r).1 =
      (E.open_device_with_vid_pid r.world vid pid).1 := rfl

/-- The loop of `send_command` issues one interrupt transfer per index, in order, to
endpoint 1 with the 5000 ms timeout, whatever the transfers return. -/
theorem send_command_loop_calls (C : Ctx) (E : Sys σ) (handle : Nat) (command : cmdstruct)
    (l : List Nat) (r : Run σ) :
    (send_command_loop C E handle command l r).calls =
      r.calls ++ l.map (fun i => Call.libusb_interrupt_transfer handle 1
        (command.cmds.getD i (List.replicate C.frameLen 0)) C.frameLen 5000) := by
  induction l generalizing r with
  | nil => simp [send_command_loop]
  | cons i rest ih =>
    simp only [send_command_loop, ih, apply_ite Run.calls, perror_calls, ite_self,
      libusb_interrupt_transfer_calls, TRANSFER_WAIT_TIMEOUT_MS, List.map_cons,
      List.append_assoc, List.singleton_append]

/-- The external calls of `send_command` on a non-empty batch. -/
theorem send_command_calls (C : Ctx) (E : Sys σ) (handle : Nat) (command : cmdstruct)
    (r : Run σ) (hn : command.numCmds ≠ 0) :
    (send_command C E handle command r).2.calls =
      r.calls ++ ([Call.libusb_detach_kernel_driver handle 0,
          Call.libusb_claim_interface handle 0] ++
        (List.range command.numCmds).map (fun i => Call.libusb_interrupt_transfer handle 1
          (command.cmds.getD i (List.replicate C.frameLen 0)) C.frameLen 5000) ++
        [Call.libusb_release_interface handle 0, Call.libusb_attach_kernel_driver handle 0]) := by
  simp only [send_command, if_neg hn, apply_ite Run.calls, perror_calls, ite_self,
    libusb_attach_kernel_driver_calls, libusb_release_interface_calls, send_command_loop_calls,
    libusb_claim_interface_calls, libusb_detach_kernel_driver_calls, List.append_assoc,
    List.singleton_append, List.cons_append, List.nil_append]

/-- The external calls of `send_command` on a batch of one frame. -/
theorem send_command_single_calls (C : Ctx) (E : Sys σ) (handle : Nat) (frame : List Nat)
    (r : Run σ) :
    (send_command C E handle { cmds := [frame], numCmds := 1 } r).2.calls =
      r.calls ++ [Call.libusb_detach_kernel_driver handle 0,
        Call.libusb_claim_interface handle 0,
        Call.libusb_interrupt_transfer handle 1 frame C.frameLen 5000,
        Call.libusb_release_interface handle 0,
        Call.libusb_attach_kernel_driver handle 0] := by
  rw [send_command_calls C E handle { cmds := [frame], numCmds := 1 } r Nat.one_ne_zero]
  rfl

/-- The function `send_command` always returns 0. -/
theorem send_command_ret (C : Ctx) (E : Sys σ) (handle : Nat) (command : cmdstruct)
    (r : Run σ) : (send_command C E handle command r).1 = 0 := by
  unfold send_command
  split <;> rfl

/-- Reading the first `n` rows by index is reading the batch front to back. -/
theorem map_range_getD {α β : Type} (f : α → β) (d : α) (l : List α) (n : Nat)
    (hn : n ≤ l.length) :
    (List.range n).map (fun i => f (l.getD i d)) = (l.take n).map f := by
  apply List.ext_getElem
  · simp [hn]
  · intro i h1 h2
    simp only [List.length_map, List.length_range] at h1
    simp [List.getD, List.getElem?_eq_getElem (Nat.lt_of_lt_of_le h1 hn)]

/-- The low byte of a 16-bit value. -/
theorem and_ff_eq_mod (range : Nat) : range &&& 0x00ff = range % 256 :=
  Nat.and_pow_two_sub_one_eq_mod range 8

/-- Shifting right distributes over bitwise and. -/
theorem shiftRight_and (a b k : Nat) : (a &&& b) >>> k = (a >>> k) &&& (b >>> k) := by
  apply Nat.eq_of_testBit_eq
  intro i
  simp only [Nat.testBit_shiftRight, Nat.testBit_and]

/-- The high byte of a 16-bit value. -/
theorem and_ff00_shift_eq_div (range : Nat) (h : range < 65536) :
    (range &&& 0xff00) >>> 8 = range / 256 := by
  rw [shiftRight_and]
  have h2 : (0xff00 : Nat) >>> 8 = 2 ^ 8 - 1 := by decide
  rw [h2, Nat.and_pow_two_sub_one_eq_mod, Nat.shiftRight_eq_div_pow]
  omega

/-- A brace initialiser no longer than the row is followed by zeros. -/
theorem row_init_of_le (width : Nat) (bytes : List Nat) (h : bytes.length ≤ width) :
    row_init width bytes = bytes ++ List.replicate (width - bytes.length) 0 := by
  unfold row_init
  apply List.take_of_length_le
  simp
  omega

/-! ### Claims on `send_command` -/

/-- C6: `send_command` on an empty batch (`numCmds = 0`), for every handle and every
world, returns 0 and issues no external call at all: no detach, claim, interrupt
transfer, release or reattach, and the world is left as it was. -/
theorem send_command_empty (C : Ctx) (E : Sys σ) (handle : Nat) (command : cmdstruct)
    (r : Run σ) (h0 : command.numCmds = 0) :
    (send_command C E handle command r).1 = 0 ∧
    (send_command C E handle command r).2.calls = r.calls ∧
    (send_command C E handle command r).2.world = r.world := by
  simp [send_command, h0]

/-- Witness for C6: an empty batch on the scripted bus, handle 1. -/
theorem send_command_empty_witness :
    (send_command (demo_ctx 7) demo_sys 1 { cmds := [], numCmds := 0 } (demo_run 1)).1 = 0 ∧
    (send_command (demo_ctx 7) demo_sys 1 { cmds := [], numCmds := 0 } (demo_run 1)).2.calls
      = [] ∧
    (send_command (demo_ctx 7) demo_sys 1 { cmds := [], numCmds := 0 } (demo_run 1)).2.world
      = 1 :=
  send_command_empty (demo_ctx 7) demo_sys 1 { cmds := [], numCmds := 0 } (demo_run 1) rfl

/-- C10: `send_command` on a non-empty batch, whatever each transport step returns:
the call returns 0 and the external calls issued are exactly detach, claim, one
interrupt transfer to endpoint 1 with timeout 5000 for each index below `numCmds` in
increasing order (carrying row `cmds[i]` and the row width as length), release,
reattach.  When the batch holds at least `numCmds` rows these transfers carry the
first `numCmds` rows of the batch, front to back. -/
theorem send_command_nonempty (C : Ctx) (E : Sys σ) (handle : Nat) (command : cmdstruct)
    (r : Run σ) (hn : command.numCmds ≠ 0) :
    (send_command C E handle command r).1 = 0 ∧
    (send_command C E handle command r).2.calls =
      r.calls ++ ([Call.libusb_detach_kernel_driver handle 0,
          Call.libusb_claim_interface handle 0] ++
        (List.range command.numCmds).map (fun i => Call.libusb_interrupt_transfer handle 1
          (command.cmds.getD i (List.replicate C.frameLen 0)) C.frameLen 5000) ++
        [Call.libusb_release_interface handle 0, Call.libusb_attach_kernel_driver handle 0]) ∧
    (command.numCmds ≤ command.cmds.length →
      (send_command C E handle command r).2.calls =
        r.calls ++ ([Call.libusb_detach_kernel_driver handle 0,
            Call.libusb_claim_interface handle 0] ++
          (command.cmds.take command.numCmds).map (fun frame =>
            Call.libusb_interrupt_transfer handle 1 frame C.frameLen 5000) ++
          [Call.libusb_release_interface handle 0,
            Call.libusb_attach_kernel_driver handle 0])) := by
  refine ⟨send_command_ret C E handle command r, send_command_calls C E handle command r hn, ?_⟩
  intro hlen
  rw [send_command_calls C E handle command r hn,
    map_range_getD (fun frame => Call.libusb_interrupt_transfer handle 1 frame C.frameLen 5000)
      (List.replicate C.frameLen 0) command.cmds command.numCmds hlen]

/-- Witness for C10: the two-frame native-mode command sent through handle 9 while the
device behind the bus has handle 1, so that every transport step fails. -/
theorem send_command_nonempty_witness :
    (send_command (demo_ctx 7) demo_sys 9 (demo_wheel 7).cmd_native (demo_run 1)).1 = 0 ∧
    (send_command (demo_ctx 7) demo_sys 9 (demo_wheel 7).cmd_native (demo_run 1)).2.calls =
      [Call.libusb_detach_kernel_driver 9 0,
       Call.libusb_claim_interface 9 0,
       Call.libusb_interrupt_transfer 9 1 [0xf8, 0x0a, 0, 0, 0, 0, 0] 7 5000,
       Call.libusb_interrupt_transfer 9 1 [0xf8, 0x09, 0x02, 0x01, 0, 0, 0] 7 5000,
       Call.libusb_release_interface 9 0,
       Call.libusb_attach_kernel_driver 9 0] :=
  ⟨(send_command_nonempty (demo_ctx 7) demo_sys 9 (demo_wheel 7).cmd_native (demo_run 1)
      (by decide)).1,
   (send_command_nonempty (demo_ctx 7) demo_sys 9 (demo_wheel 7).cmd_native (demo_run 1)
      (by decide)).2.2 (by decide)⟩

end Transport

/-! ## Mode controller -/

section Mode

variable {σ : Type}

/-- C7: `set_native_mode` on a model whose native and restricted product ids are equal,
for every world: the call returns 0, issues no external call (no device probe, no
command dispatch) and leaves the world as it was. -/
theorem set_native_mode_single_pid (C : Ctx) (E : Sys σ) (wheelIndex : Nat) (r : Run σ)
    (heq : (C.wheels wheelIndex).native_pid = (C.wheels wheelIndex).restricted_pid) :
    (set_native_mode C E wheelIndex r).1 = 0 ∧
    (set_native_mode C E wheelIndex r).2.calls = r.calls ∧
    (set_native_mode C E wheelIndex r).2.world = r.world := by
  simp [set_native_mode, heq]

/-- Witness for C7: table entry 1 of the scripted context has a single product id. -/
theorem set_native_mode_single_pid_witness :
    (set_native_mode (demo_ctx 7) demo_sys 1 (demo_run 1)).1 = 0 ∧
    (set_native_mode (demo_ctx 7) demo_sys 1 (demo_run 1)).2.calls = [] ∧
    (set_native_mode (demo_ctx 7) demo_sys 1 (demo_run 1)).2.world = 1 :=
  set_native_mode_single_pid (demo_ctx 7) demo_sys 1 (demo_run 1) rfl

/-- Counterexample to C8 as stated: table entry 1 of the scripted context has an empty
native-mode command, yet `set_native_mode` returns 0 on it (its two product ids are
equal); and table entry 2 has an empty native-mode command and two product ids, yet
`set_native_mode` returns 0 when the device is already present under its native id. -/
theorem set_native_mode_empty_command_counterexample :
    ((demo_ctx 7).wheels 1).cmd_native.numCmds = 0 ∧
    (set_native_mode (demo_ctx 7) demo_sys 1 (demo_run 1)).1 = 0 ∧
    ((demo_ctx 7).wheels 2).cmd_native.numCmds = 0 ∧
    (set_native_mode (demo_ctx 7) demo_sys 2 (demo_run 2)).1 = 0 := by
  decide

/-- C8, amended: for a model whose native-mode command is empty, `set_native_mode`
never dispatches a command and never probes the restricted product id: its only
external call is the probe of the native product id, made when the two product ids
differ.  It returns -1 exactly when the two product ids differ and that probe finds no
device, and returns 0 otherwise (equal product ids, or device already native). -/
theorem set_native_mode_empty_command (C : Ctx) (E : Sys σ) (wheelIndex : Nat) (r : Run σ)
    (h0 : (C.wheels wheelIndex).cmd_native.numCmds = 0) :
    (set_native_mode C E wheelIndex r).2.calls =
      r.calls ++
        (if (C.wheels wheelIndex).native_pid = (C.wheels wheelIndex).restricted_pid then []
         else [Call.libusb_open_device_with_vid_pid C.VID_LOGITECH
                 (C.wheels wheelIndex).native_pid]) ∧
    ((set_native_mode C E wheelIndex r).1 = -1 ↔
      ((C.wheels wheelIndex).native_pid ≠ (C.wheels wheelIndex).restricted_pid ∧
       (E.open_device_with_vid_pid r.world C.VID_LOGITECH
          (C.wheels wheelIndex).native_pid).1 = NULL)) ∧
    ((set_native_mode C E wheelIndex r).1 = 0 ↔
      ((C.wheels wheelIndex).native_pid = (C.wheels wheelIndex).restricted_pid ∨
       (E.open_device_with_vid_pid r.world C.VID_LOGITECH
          (C.wheels wheelIndex).native_pid).1 ≠ NULL)) := by
  by_cases heq : (C.wheels wheelIndex).native_pid = (C.wheels wheelIndex).restricted_pid
  · simp [set_native_mode, heq]
  · by_cases hp : (E.open_device_with_vid_pid r.world C.VID_LOGITECH
        (C.wheels wheelIndex).native_pid).1 = NULL
    · simp [set_native_mode, heq, h0, hp, libusb_open_device_with_vid_pid]
    · simp [set_native_mode, heq, hp, libusb_open_device_with_vid_pid]

/-- Witness for C8, amended: table entry 2 (two product ids, no native-mode command)
with the wheel present in restricted mode only. -/
theorem set_native_mode_empty_command_witness :
    (set_native_mode (demo_ctx 7) demo_sys 2 (demo_run 1)).2.calls =
      [Call.libusb_open_device_with_vid_pid 0x046d 0xc299] ∧
    (set_native_mode (demo_ctx 7) demo_sys 2 (demo_run 1)).1 = -1 :=
  ⟨(set_native_mode_empty_command (demo_ctx 7) demo_sys 2 (demo_run 1) rfl).1,
   (set_native_mode_empty_command (demo_ctx 7) demo_sys 2 (demo_run 1) rfl).2.1.mpr
     (by decide)⟩

/-- C9: `set_native_mode` on the switching path (two distinct product ids, a non-empty
native-mode command, no device at the native id, a device at the restricted id),
whatever detach, claim, the interrupt transfers, release and reattach return: the
native-mode command is dispatched through the restricted-mode handle, followed by the
3 s wait and a second probe of the native id; the call returns 0 if that probe finds
the device and -1 if it does not. -/
theorem set_native_mode_switch (C : Ctx) (E : Sys σ) (wheelIndex : Nat) (r : Run σ)
    (hne : (C.wheels wheelIndex).native_pid ≠ (C.wheels wheelIndex).restricted_pid)
    (hcmd : (C.wheels wheelIndex).cmd_native.numCmds ≠ 0)
    (hnat : (libusb_open_device_with_vid_pid E C.VID_LOGITECH
      (C.wheels wheelIndex).native_pid r).1 = NULL)
    (hres : (libusb_open_device_with_vid_pid E C.VID_LOGITECH
      (C.wheels wheelIndex).restricted_pid
      (libusb_open_device_with_vid_pid E C.VID_LOGITECH
        (C.wheels wheelIndex).native_pid r).2).1 ≠ NULL) :
    let w := C.wheels wheelIndex
    let p1 := libusb_open_device_with_vid_pid E C.VID_LOGITECH w.native_pid r
    let p2 := libusb_open_device_with_vid_pid E C.VID_LOGITECH w.restricted_pid p1.2
    let p3 := send_command C E p2.1 w.cmd_native p2.2
    let p5 := libusb_open_device_with_vid_pid E C.VID_LOGITECH w.native_pid
      (sleep E CONFIGURE_WAIT_SEC p3.2)
    (set_native_mode C E wheelIndex r).2.calls =
      r.calls ++ ([Call.libusb_open_device_with_vid_pid C.VID_LOGITECH w.native_pid,
          Call.libusb_open_device_with_vid_pid C.VID_LOGITECH w.restricted_pid,
          Call.libusb_detach_kernel_driver p2.1 0,
          Call.libusb_claim_interface p2.1 0] ++
        (List.range w.cmd_native.numCmds).map (fun i => Call.libusb_interrupt_transfer p2.1 1
          (w.cmd_native.cmds.getD i (List.replicate C.frameLen 0)) C.frameLen 5000) ++
        [Call.libusb_release_interface p2.1 0,
          Call.libusb_attach_kernel_driver p2.1 0,
          Call.sleep 3,
          Call.libusb_open_device_with_vid_pid C.VID_LOGITECH w.native_pid]) ∧
    ((set_native_mode C E wheelIndex r).1 = 0 ↔ p5.1 ≠ NULL) ∧
    ((set_native_mode C E wheelIndex r).1 = -1 ↔ p5.1 = NULL) := by
  intro w p1 p2 p3 p5
  have hcalls : p3.2.calls = _ :=
    send_command_calls C E p2.1 w.cmd_native p2.2 hcmd
  have hrun : set_native_mode C E wheelIndex r =
      if p5.1 ≠ NULL then (0, printf (w.name ++ " is now set to native mode.\n") p5.2)
      else (-1, printf ("Unable to set " ++ w.name ++ " to native mode.\n") p5.2) := by
    simp only [set_native_mode, if_neg hne, hnat, ne_eq, not_true_eq_false, if_false,
      if_neg hcmd, if_neg hres]
  have hc5 : p5.2.calls = _ :=
    libusb_open_device_with_vid_pid_calls E C.VID_LOGITECH w.native_pid
      (sleep E CONFIGURE_WAIT_SEC p3.2)
  have hc2 : p2.2.calls = _ :=
    libusb_open_device_with_vid_pid_calls E C.VID_LOGITECH w.restricted_pid p1.2
  have hc1 : p1.2.calls = _ :=
    libusb_open_device_with_vid_pid_calls E C.VID_LOGITECH w.native_pid r
  have hall : p5.2.calls = r.calls ++ ([Call.libusb_open_device_with_vid_pid C.VID_LOGITECH
          w.native_pid,
        Call.libusb_open_device_with_vid_pid C.VID_LOGITECH w.restricted_pid,
        Call.libusb_detach_kernel_driver p2.1 0,
        Call.libusb_claim_interface p2.1 0] ++
      (List.range w.cmd_native.numCmds).map (fun i => Call.libusb_interrupt_transfer p2.1 1
        (w.cmd_native.cmds.getD i (List.replicate C.frameLen 0)) C.frameLen 5000) ++
      [Call.libusb_release_interface p2.1 0,
        Call.libusb_attach_kernel_driver p2.1 0,
        Call.sleep 3,
        Call.libusb_open_device_with_vid_pid C.VID_LOGITECH w.native_pid]) := by
    rw [hc5, sleep_calls, hcalls, hc2, hc1]
    simp only [CONFIGURE_WAIT_SEC, List.append_assoc, List.singleton_append, List.cons_append,
      List.nil_append]
  rw [hrun]
  by_cases h5 : p5.1 = NULL
  · rw [if_neg (not_not.mpr h5)]
    refine ⟨?_, ?_, ?_⟩
    · rw [printf_calls, hall]
    · simp [h5]
    · simp [h5]
  · rw [if_pos h5]
    refine ⟨?_, ?_, ?_⟩
    · rw [printf_calls, hall]
    · simp [h5]
    · simp [h5]

/-- Witness for C9: on the scripted bus the wheel of table entry 0 re-enumerates on the
second frame of its native-mode command, so release and reattach report
`LIBUSB_ERROR_NO_DEVICE`, the second probe finds it and the call returns 0; the wheel of
table entry 3 does not re-enumerate, the second probe finds nothing and the call
returns -1. -/
theorem set_native_mode_switch_witness :
    (demo_sys.release_interface 2 1 0).1 = LIBUSB_ERROR_NO_DEVICE ∧
    (demo_sys.attach_kernel_driver 2 1 0).1 = LIBUSB_ERROR_NO_DEVICE ∧
    (set_native_mode (demo_ctx 7) demo_sys 0 (demo_run 1)).2.world = 2 ∧
    (set_native_mode (demo_ctx 7) demo_sys 0 (demo_run 1)).2.calls =
      [Call.libusb_open_device_with_vid_pid 0x046d 0xc299,
       Call.libusb_open_device_with_vid_pid 0x046d 0xc294,
       Call.libusb_detach_kernel_driver 1 0,
       Call.libusb_claim_interface 1 0,
       Call.libusb_interrupt_transfer 1 1 [0xf8, 0x0a, 0, 0, 0, 0, 0] 7 5000,
       Call.libusb_interrupt_transfer 1 1 [0xf8, 0x09, 0x02, 0x01, 0, 0, 0] 7 5000,
       Call.libusb_release_interface 1 0,
       Call.libusb_attach_kernel_driver 1 0,
       Call.sleep 3,
       Call.libusb_open_device_with_vid_pid 0x046d 0xc299] ∧
    (set_native_mode (demo_ctx 7) demo_sys 0 (demo_run 1)).1 = 0 ∧
    (set_native_mode (demo_ctx 7) demo_sys 3 (demo_run 1)).1 = -1 :=
  ⟨rfl, rfl, rfl,
   (set_native_mode_switch (demo_ctx 7) demo_sys 0 (demo_run 1) (by decide) (by decide)
      (by decide) (by decide)).1,
   (set_native_mode_switch (demo_ctx 7) demo_sys 0 (demo_run 1) (by decide) (by decide)
      (by decide) (by decide)).2.1.mpr (by decide),
   (set_native_mode_switch (demo_ctx 7) demo_sys 3 (demo_run 1) (by decide) (by decide)
      (by decide) (by decide)).2.2.mpr (by decide)⟩

end Mode

/-! ## Parameter setters: vendor commands -/

section Setters

variable {σ : Type}

/-- Counterexample to C1 as stated: with rows of 8 bytes, the least width that holds
the 8-byte initialiser of `set_autocenter`, prefix `f8 81` and range 500, the one
interrupt transfer of `set_range` carries the 8 bytes `f8 81 f4 01 00 00 00 00` with
length 8, which is not the 7-byte frame `f8 81 f4 01 00 00 00`. -/
theorem set_range_frame_counterexample :
    wheelstruct.cmd_range_prefix ((demo_ctx 8).wheels 0) = some (0xF8, 0x81) ∧
    (demo_sys.open_device_with_vid_pid 2 0x046d 0xc299).1 ≠ NULL ∧
    (set_range (demo_ctx 8) demo_sys 0 500 (demo_run 2)).2.calls =
      [Call.libusb_open_device_with_vid_pid 0x046d 0xc299,
       Call.libusb_detach_kernel_driver 2 0,
       Call.libusb_claim_interface 2 0,
       Call.libusb_interrupt_transfer 2 1
         [0xF8, 0x81, 0xF4, 0x01, 0x00, 0x00, 0x00, 0x00] 8 5000,
       Call.libusb_release_interface 2 0,
       Call.libusb_attach_kernel_driver 2 0] ∧
    ([0xF8, 0x81, 0xF4, 0x01, 0x00, 0x00, 0x00, 0x00] : List Nat) ≠
      [0xF8, 0x81, 0xF4, 0x01, 0x00, 0x00, 0x00] := by
  refine ⟨rfl, ?_, rfl, ?_⟩ <;> decide

/-- C1, amended: `set_range`, for a model whose range prefix is present (`p0`, `p1`), a
device found at the native product id, a range below 65536 and rows of at least 7
bytes: the call returns 0 and, after the probe, dispatches exactly one batch of one
frame (detach, claim, one interrupt transfer to endpoint 1 with timeout 5000, release,
reattach).  The frame is as long as a row and holds `p0, p1, range mod 256,
range div 256, 0, 0, 0` followed by zeros up to the row width, so that
`byte2 + 256 * byte3 = range`. -/
theorem set_range_frame_padded (C : Ctx) (E : Sys σ) (wheelIndex range p0 p1 : Nat)
    (r : Run σ)
    (hpre : wheelstruct.cmd_range_prefix (C.wheels wheelIndex) = some (p0, p1))
    (hdev : (E.open_device_with_vid_pid r.world C.VID_LOGITECH
      (C.wheels wheelIndex).native_pid).1 ≠ NULL)
    (hrange : range < 65536) (hwidth : 7 ≤ C.frameLen) :
    let handle := (E.open_device_with_vid_pid r.world C.VID_LOGITECH
      (C.wheels wheelIndex).native_pid).1
    let frame := [p0, p1, range % 256, range / 256, 0, 0, 0] ++
      List.replicate (C.frameLen - 7) 0
    (set_range C E wheelIndex range r).1 = 0 ∧
    (set_range C E wheelIndex range r).2.calls =
      r.calls ++
        [Call.libusb_open_device_with_vid_pid C.VID_LOGITECH (C.wheels wheelIndex).native_pid,
         Call.libusb_detach_kernel_driver handle 0,
         Call.libusb_claim_interface handle 0,
         Call.libusb_interrupt_transfer handle 1 frame C.frameLen 5000,
         Call.libusb_release_interface handle 0,
         Call.libusb_attach_kernel_driver handle 0] ∧
    frame.length = C.frameLen ∧
    range % 256 + 256 * (range / 256) = range := by
  intro handle frame
  have hlow : to_uchar (range &&& 0x00ff) = range % 256 := by
    rw [and_ff_eq_mod]
    unfold to_uchar
    omega
  have hhigh : to_uchar ((range &&& 0xff00) >>> 8) = range / 256 := by
    rw [and_ff00_shift_eq_div range hrange]
    unfold to_uchar
    omega
  have hrow : row_init C.frameLen [p0, p1, range % 256, range / 256, 0, 0, 0] = frame :=
    row_init_of_le C.frameLen _ hwidth
  refine ⟨?_, ?_, ?_, ?_⟩
  · simp only [set_range, libusb_open_device_with_vid_pid_fst, if_neg hdev, hpre]
  · simp only [set_range, libusb_open_device_with_vid_pid_fst, if_neg hdev, hpre, printf_calls]
    rw [hlow, hhigh, hrow, send_command_single_calls, libusb_open_device_with_vid_pid_calls]
    simp only [handle, List.append_assoc, List.singleton_append]
  · simp only [frame, List.length_append, List.length_cons, List.length_nil,
      List.length_replicate]
    omega
  · omega

/-- Witness for C1, amended: prefix `f8 81`, wheel in native mode (handle 2).  With rows
of 8 bytes the range 900 gives the frame `f8 81 84 03 00 00 00 00`; with rows of 7
bytes the range 500 gives `f8 81 f4 01 00 00 00`. -/
theorem set_range_frame_padded_witness :
    (set_range (demo_ctx 8) demo_sys 0 900 (demo_run 2)).1 = 0 ∧
    (set_range (demo_ctx 8) demo_sys 0 900 (demo_run 2)).2.calls =
      [Call.libusb_open_device_with_vid_pid 0x046d 0xc299,
       Call.libusb_detach_kernel_driver 2 0,
       Call.libusb_claim_interface 2 0,
       Call.libusb_interrupt_transfer 2 1
         [0xF8, 0x81, 0x84, 0x03, 0x00, 0x00, 0x00, 0x00] 8 5000,
       Call.libusb_release_interface 2 0,
       Call.libusb_attach_kernel_driver 2 0] ∧
    (set_range (demo_ctx 7) demo_sys 0 500 (demo_run 2)).2.calls =
      [Call.libusb_open_device_with_vid_pid 0x046d 0xc299,
       Call.libusb_detach_kernel_driver 2 0,
       Call.libusb_claim_interface 2 0,
       Call.libusb_interrupt_transfer 2 1 [0xF8, 0x81, 0xF4, 0x01, 0x00, 0x00, 0x00] 7 5000,
       Call.libusb_release_interface 2 0,
       Call.libusb_attach_kernel_driver 2 0] :=
  ⟨(set_range_frame_padded (demo_ctx 8) demo_sys 0 900 0xF8 0x81 (demo_run 2) rfl (by decide)
      (by decide) (by decide)).1,
   (set_range_frame_padded (demo_ctx 8) demo_sys 0 900 0xF8 0x81 (demo_run 2) rfl (by decide)
      (by decide) (by decide)).2.1,
   (set_range_frame_padded (demo_ctx 7) demo_sys 0 500 0xF8 0x81 (demo_run 2) rfl (by decide)
      (by decide) (by decide)).2.1⟩

end Setters

/-! ## Parameter setters: generic force-feedback path -/

section Generic

variable {σ : Type}

/-- For a percentage between 0 and 100 the stored value is the truncated quotient. -/
theorem ff_value_eq (pct : Int) (h0 : 0 ≤ pct) (h100 : pct ≤ 100) :
    ff_value pct = 65535 * pct / 100 := by
  have h1 : pct % 18446744073709551616 = pct := Int.emod_eq_of_lt h0 (by omega)
  have h2 : 65535 * pct.toNat % 18446744073709551616 = 65535 * pct.toNat :=
    Nat.mod_eq_of_lt (by omega)
  have h3 : 65535 * pct.toNat / 100 % 4294967296 = 65535 * pct.toNat / 100 :=
    Nat.mod_eq_of_lt (by omega)
  have h4 : 65535 * pct.toNat / 100 < 2147483648 := by omega
  unfold ff_value to_s32 to_ulong
  rw [h1, h2, h3, if_pos h4]
  omega

/-- The world in which `set_gain` and `alt_set_autocenter` open the device file: the
world after the optional wait. -/
theorem world_after_wait (E : Sys σ) (c : Prop) [Decidable c] (text : String)
    (wait_for_udev : Int) (r : Run σ) :
    (if wait_for_udev ≠ 0 then sleep E UDEV_WAIT_SEC (if c then printf text r else r)
      else (if c then printf text r else r)).world =
      (if wait_for_udev ≠ 0 then E.sleep r.world UDEV_WAIT_SEC else r.world) := by
  by_cases hw : wait_for_udev = 0 <;> by_cases hc : c <;> simp [hw, hc, sleep]

/-- The calls issued up to the opening of the device file. -/
theorem calls_after_wait (E : Sys σ) (c : Prop) [Decidable c] (text : String)
    (wait_for_udev : Int) (r : Run σ) :
    (if wait_for_udev ≠ 0 then sleep E UDEV_WAIT_SEC (if c then printf text r else r)
      else (if c then printf text r else r)).calls =
      r.calls ++ (if wait_for_udev ≠ 0 then [Call.sleep 2] else []) := by
  by_cases hw : wait_for_udev = 0 <;> by_cases hc : c <;> simp [hw, hc, sleep, UDEV_WAIT_SEC]

/-- The value returned by `open` depends on the world only. -/
theorem sys_open_fst (E : Sys σ) (path : String) (flags : Nat) (r : Run σ) :
    (sys_open E path flags r).1 = (E.sys_open r.world path flags).1 := rfl

/-- The run of `set_gain` once the device file is open and the percentage in range: one
wait at most, the open, one write. -/
theorem set_gain_in_range (C : Ctx) (E : Sys σ) (gain : Int) (path : String)
    (wait_for_udev : Int) (r : Run σ) (h0 : 0 ≤ gain) (h100 : gain ≤ 100)
    (hopen : (E.sys_open (if wait_for_udev ≠ 0 then E.sleep r.world UDEV_WAIT_SEC
      else r.world) path O_RDWR).1 ≠ -1) :
    (set_gain C E gain path wait_for_udev r).2.calls =
      r.calls ++ (if wait_for_udev ≠ 0 then [Call.sleep 2] else []) ++
        [Call.sys_open path O_RDWR,
         Call.sys_write (E.sys_open (if wait_for_udev ≠ 0 then E.sleep r.world UDEV_WAIT_SEC
             else r.world) path O_RDWR).1
           { type := EV_FF, code := FF_GAIN, value := ff_value gain }] := by
  simp only [set_gain, sys_open_fst, world_after_wait, if_neg hopen, if_pos (And.intro h0 h100),
    apply_ite Prod.snd, apply_ite Run.calls, printf_calls, perror_calls, ite_self,
    sys_write_calls, sys_open_calls, List.append_assoc, List.singleton_append]
  by_cases hw : wait_for_udev = 0 <;>
    simp [hw, UDEV_WAIT_SEC, apply_ite Run.calls]

/-- The run of `alt_set_autocenter` once the device file is open and the percentage in
range: one wait at most, the open, one write. -/
theorem alt_set_autocenter_in_range (C : Ctx) (E : Sys σ) (centerforce : Int) (path : String)
    (wait_for_udev : Int) (r : Run σ) (h0 : 0 ≤ centerforce) (h100 : centerforce ≤ 100)
    (hopen : (E.sys_open (if wait_for_udev ≠ 0 then E.sleep r.world UDEV_WAIT_SEC
      else r.world) path O_RDWR).1 ≠ -1) :
    (alt_set_autocenter C E centerforce path wait_for_udev r).2.calls =
      r.calls ++ (if wait_for_udev ≠ 0 then [Call.sleep 2] else []) ++
        [Call.sys_open path O_RDWR,
         Call.sys_write (E.sys_open (if wait_for_udev ≠ 0 then E.sleep r.world UDEV_WAIT_SEC
             else r.world) path O_RDWR).1
           { type := EV_FF, code := FF_AUTOCENTER, value := ff_value centerforce }] := by
  simp only [alt_set_autocenter, sys_open_fst, world_after_wait, if_neg hopen,
    if_pos (And.intro h0 h100),
    apply_ite Prod.snd, apply_ite Run.calls, printf_calls, perror_calls, ite_self,
    sys_write_calls, sys_open_calls, List.append_assoc, List.singleton_append]
  by_cases hw : wait_for_udev = 0 <;>
    simp [hw, UDEV_WAIT_SEC, apply_ite Run.calls]

/-- The run of `set_gain` once the device file is open and the percentage out of range:
one wait at most and the open; the call returns 0. -/
theorem set_gain_out_of_range (C : Ctx) (E : Sys σ) (gain : Int) (path : String)
    (wait_for_udev : Int) (r : Run σ) (hout : gain < 0 ∨ 100 < gain)
    (hopen : (E.sys_open (if wait_for_udev ≠ 0 then E.sleep r.world UDEV_WAIT_SEC
      else r.world) path O_RDWR).1 ≠ -1) :
    (set_gain C E gain path wait_for_udev r).1 = 0 ∧
    (set_gain C E gain path wait_for_udev r).2.calls =
      r.calls ++ (if wait_for_udev ≠ 0 then [Call.sleep 2] else []) ++
        [Call.sys_open path O_RDWR] := by
  have hnot : ¬ (0 ≤ gain ∧ gain ≤ 100) := by omega
  simp only [set_gain, sys_open_fst, world_after_wait, if_neg hopen, if_neg hnot,
    printf_calls, sys_open_calls, calls_after_wait, List.append_assoc, and_self]

/-- The run of `alt_set_autocenter` once the device file is open and the percentage out
of range: one wait at most and the open; the call returns 0. -/
theorem alt_set_autocenter_out_of_range (C : Ctx) (E : Sys σ) (centerforce : Int)
    (path : String) (wait_for_udev : Int) (r : Run σ)
    (hout : centerforce < 0 ∨ 100 < centerforce)
    (hopen : (E.sys_open (if wait_for_udev ≠ 0 then E.sleep r.world UDEV_WAIT_SEC
      else r.world) path O_RDWR).1 ≠ -1) :
    (alt_set_autocenter C E centerforce path wait_for_udev r).1 = 0 ∧
    (alt_set_autocenter C E centerforce path wait_for_udev r).2.calls =
      r.calls ++ (if wait_for_udev ≠ 0 then [Call.sleep 2] else []) ++
        [Call.sys_open path O_RDWR] := by
  have hnot : ¬ (0 ≤ centerforce ∧ centerforce ≤ 100) := by omega
  simp only [alt_set_autocenter, sys_open_fst, world_after_wait, if_neg hopen, if_neg hnot,
    printf_calls, sys_open_calls, calls_after_wait, List.append_assoc, and_self]

/-- C3: `set_gain` and `alt_set_autocenter`, for a percentage between 0 and 100 and a
device path that opens: after the optional wait and the open, exactly one event is
written, of type `EV_FF` and code `FF_GAIN` resp. `FF_AUTOCENTER`, and its value is the
truncated quotient `65535 * pct / 100`. -/
theorem generic_path_truncates (C : Ctx) (E : Sys σ) (pct : Int) (path : String)
    (wait_for_udev : Int) (r : Run σ) (h0 : 0 ≤ pct) (h100 : pct ≤ 100)
    (hopen : (E.sys_open (if wait_for_udev ≠ 0 then E.sleep r.world UDEV_WAIT_SEC
      else r.world) path O_RDWR).1 ≠ -1) :
    (set_gain C E pct path wait_for_udev r).2.calls =
      r.calls ++ (if wait_for_udev ≠ 0 then [Call.sleep 2] else []) ++
        [Call.sys_open path O_RDWR,
         Call.sys_write (E.sys_open (if wait_for_udev ≠ 0 then E.sleep r.world UDEV_WAIT_SEC
             else r.world) path O_RDWR).1
           { type := EV_FF, code := FF_GAIN, value := 65535 * pct / 100 }] ∧
    (alt_set_autocenter C E pct path wait_for_udev r).2.calls =
      r.calls ++ (if wait_for_udev ≠ 0 then [Call.sleep 2] else []) ++
        [Call.sys_open path O_RDWR,
         Call.sys_write (E.sys_open (if wait_for_udev ≠ 0 then E.sleep r.world UDEV_WAIT_SEC
             else r.world) path O_RDWR).1
           { type := EV_FF, code := FF_AUTOCENTER, value := 65535 * pct / 100 }] := by
  rw [← ff_value_eq pct h0 h100]
  exact ⟨set_gain_in_range C E pct path wait_for_udev r h0 h100 hopen,
    alt_set_autocenter_in_range C E pct path wait_for_udev r h0 h100 hopen⟩

/-- Witness for C3: on the scripted bus a gain of 50 writes 32767, a percentage of 0
writes 0 and a percentage of 100 writes 65535 (the last one after the 2 s wait). -/
theorem generic_path_truncates_witness :
    (set_gain (demo_ctx 7) demo_sys 50 "/dev/input/event5" 0 (demo_run 2)).2.calls =
      [Call.sys_open "/dev/input/event5" O_RDWR,
       Call.sys_write 3 { type := EV_FF, code := FF_GAIN, value := 32767 }] ∧
    (alt_set_autocenter (demo_ctx 7) demo_sys 0 "/dev/input/event5" 0 (demo_run 2)).2.calls =
      [Call.sys_open "/dev/input/event5" O_RDWR,
       Call.sys_write 3 { type := EV_FF, code := FF_AUTOCENTER, value := 0 }] ∧
    (set_gain (demo_ctx 7) demo_sys 100 "/dev/input/event5" 1 (demo_run 2)).2.calls =
      [Call.sleep 2,
       Call.sys_open "/dev/input/event5" O_RDWR,
       Call.sys_write 3 { type := EV_FF, code := FF_GAIN, value := 65535 }] :=
  ⟨(generic_path_truncates (demo_ctx 7) demo_sys 50 "/dev/input/event5" 0 (demo_run 2)
      (by decide) (by decide) (by decide)).1,
   (generic_path_truncates (demo_ctx 7) demo_sys 0 "/dev/input/event5" 0 (demo_run 2)
      (by decide) (by decide) (by decide)).2,
   (generic_path_truncates (demo_ctx 7) demo_sys 100 "/dev/input/event5" 1 (demo_run 2)
      (by decide) (by decide) (by decide)).1⟩

/-- Counterexample to C4 as stated: for the percentage 2 both functions write the value
1310, while `65535 * 2 / 100 = 1310.7` and the integer nearest to it is 1311. -/
theorem generic_path_rounds_counterexample :
    (set_gain (demo_ctx 7) demo_sys 2 "/dev/input/event5" 0 (demo_run 2)).2.calls =
      [Call.sys_open "/dev/input/event5" O_RDWR,
       Call.sys_write 3 { type := EV_FF, code := FF_GAIN, value := 1310 }] ∧
    (alt_set_autocenter (demo_ctx 7) demo_sys 2 "/dev/input/event5" 0 (demo_run 2)).2.calls =
      [Call.sys_open "/dev/input/event5" O_RDWR,
       Call.sys_write 3 { type := EV_FF, code := FF_AUTOCENTER, value := 1310 }] ∧
    ¬ is_nearest_integer 1310 (65535 * 2) 100 ∧
    is_nearest_integer 1311 (65535 * 2) 100 := by
  refine ⟨rfl, rfl, ?_, ?_⟩ <;> decide

/-- C4, amended: `set_gain` and `alt_set_autocenter`, for a percentage between 0 and 100
and a device path that opens, write one event whose value `v` is the quotient
`65535 * pct / 100` rounded down: `100 * v ≤ 65535 * pct < 100 * (v + 1)`.  This `v` is
an integer nearest to the quotient exactly when `65535 * pct mod 100 ≤ 50`; when the
remainder is 50 or more, `v + 1` is an integer nearest to the quotient. -/
theorem generic_path_rounds_down (C : Ctx) (E : Sys σ) (pct : Int) (path : String)
    (wait_for_udev : Int) (r : Run σ) (h0 : 0 ≤ pct) (h100 : pct ≤ 100)
    (hopen : (E.sys_open (if wait_for_udev ≠ 0 then E.sleep r.world UDEV_WAIT_SEC
      else r.world) path O_RDWR).1 ≠ -1) :
    ∃ v : Int,
      (set_gain C E pct path wait_for_udev r).2.calls =
        r.calls ++ (if wait_for_udev ≠ 0 then [Call.sleep 2] else []) ++
          [Call.sys_open path O_RDWR,
           Call.sys_write (E.sys_open (if wait_for_udev ≠ 0 then
               E.sleep r.world UDEV_WAIT_SEC else r.world) path O_RDWR).1
             { type := EV_FF, code := FF_GAIN, value := v }] ∧
      (alt_set_autocenter C E pct path wait_for_udev r).2.calls =
        r.calls ++ (if wait_for_udev ≠ 0 then [Call.sleep 2] else []) ++
          [Call.sys_open path O_RDWR,
           Call.sys_write (E.sys_open (if wait_for_udev ≠ 0 then
               E.sleep r.world UDEV_WAIT_SEC else r.world) path O_RDWR).1
             { type := EV_FF, code := FF_AUTOCENTER, value := v }] ∧
      100 * v ≤ 65535 * pct ∧ 65535 * pct < 100 * (v + 1) ∧
      (is_nearest_integer v (65535 * pct) 100 ↔ 65535 * pct % 100 ≤ 50) ∧
      (50 ≤ 65535 * pct % 100 → is_nearest_integer (v + 1) (65535 * pct) 100) := by
  refine ⟨ff_value pct, set_gain_in_range C E pct path wait_for_udev r h0 h100 hopen,
    alt_set_autocenter_in_range C E pct path wait_for_udev r h0 h100 hopen, ?_, ?_, ?_, ?_⟩
  · rw [ff_value_eq pct h0 h100]
    omega
  · rw [ff_value_eq pct h0 h100]
    omega
  · rw [ff_value_eq pct h0 h100]
    unfold is_nearest_integer
    constructor
    · intro h
      omega
    · intro h
      omega
  · rw [ff_value_eq pct h0 h100]
    unfold is_nearest_integer
    intro h
    omega

/-- Witness for C4, amended: the percentage 2 on the scripted bus. -/
theorem generic_path_rounds_down_witness :
    ∃ v : Int,
      (set_gain (demo_ctx 7) demo_sys 2 "/dev/input/event5" 0 (demo_run 2)).2.calls =
        [Call.sys_open "/dev/input/event5" O_RDWR,
         Call.sys_write 3 { type := EV_FF, code := FF_GAIN, value := v }] ∧
      (alt_set_autocenter (demo_ctx 7) demo_sys 2 "/dev/input/event5" 0 (demo_run 2)).2.calls =
        [Call.sys_open "/dev/input/event5" O_RDWR,
         Call.sys_write 3 { type := EV_FF, code := FF_AUTOCENTER, value := v }] ∧
      100 * v ≤ 65535 * 2 ∧ 65535 * 2 < 100 * (v + 1) ∧
      (is_nearest_integer v (65535 * 2) 100 ↔ (65535 * 2 % 100 : Int) ≤ 50) ∧
      ((50 : Int) ≤ 65535 * 2 % 100 → is_nearest_integer (v + 1) (65535 * 2) 100) :=
  generic_path_rounds_down (demo_ctx 7) demo_sys 2 "/dev/input/event5" 0 (demo_run 2)
    (by decide) (by decide) (by decide)

/-- C5: `set_gain` and `alt_set_autocenter` with a percentage below 0 or above 100 and
a device path that opens: the open is still made (after the optional wait), no event
is written, and the call returns 0. -/
theorem generic_path_out_of_range (C : Ctx) (E : Sys σ) (pct : Int) (path : String)
    (wait_for_udev : Int) (r : Run σ) (hout : pct < 0 ∨ 100 < pct)
    (hopen : (E.sys_open (if wait_for_udev ≠ 0 then E.sleep r.world UDEV_WAIT_SEC
      else r.world) path O_RDWR).1 ≠ -1) :
    ((set_gain C E pct path wait_for_udev r).1 = 0 ∧
      (set_gain C E pct path wait_for_udev r).2.calls =
        r.calls ++ (if wait_for_udev ≠ 0 then [Call.sleep 2] else []) ++
          [Call.sys_open path O_RDWR]) ∧
    ((alt_set_autocenter C E pct path wait_for_udev r).1 = 0 ∧
      (alt_set_autocenter C E pct path wait_for_udev r).2.calls =
        r.calls ++ (if wait_for_udev ≠ 0 then [Call.sleep 2] else []) ++
          [Call.sys_open path O_RDWR]) :=
  ⟨set_gain_out_of_range C E pct path wait_for_udev r hout hopen,
   alt_set_autocenter_out_of_range C E pct path wait_for_udev r hout hopen⟩

/-- Witness for C5: a gain of 150 and a centre force of -1 on the scripted bus. -/
theorem generic_path_out_of_range_witness :
    ((set_gain (demo_ctx 7) demo_sys 150 "/dev/input/event5" 0 (demo_run 2)).1 = 0 ∧
      (set_gain (demo_ctx 7) demo_sys 150 "/dev/input/event5" 0 (demo_run 2)).2.calls =
        [Call.sys_open "/dev/input/event5" O_RDWR]) ∧
    ((alt_set_autocenter (demo_ctx 7) demo_sys (-1) "/dev/input/event5" 0 (demo_run 2)).1 = 0 ∧
      (alt_set_autocenter (demo_ctx 7) demo_sys (-1) "/dev/input/event5" 0 (demo_run 2)).2.calls =
        [Call.sys_open "/dev/input/event5" O_RDWR]) :=
  ⟨(generic_path_out_of_range (demo_ctx 7) demo_sys 150 "/dev/input/event5" 0 (demo_run 2)
      (by decide) (by decide)).1,
   (generic_path_out_of_range (demo_ctx 7) demo_sys (-1) "/dev/input/event5" 0 (demo_run 2)
      (by decide) (by decide)).2⟩

end Generic

end LTWheelConf
